import Mathlib

/-!
Verification of the todo data-access layer (`app/lib/todos.ts`) against its
specification.  The layer is embedded shallowly:

* JavaScript strings are sequences of characters (`List Char`); `trim`,
  `toLowerCase` and `length` are the corresponding list operations.
* JavaScript numbers handed to the id-taking operations are rationals `ℚ`;
  `Number.isInteger id` is `id.den = 1` and `id <= 0` is `id.num ≤ 0`.
* The SQLite table behind drizzle is a list of rows plus an autoincrement
  counter; every operation returns the outcome (a value or a thrown
  `TodoError`), the table state after the call, and the number of storage
  round trips it performed.
* Timestamps (`new Date()`) are naturals supplied by the caller as `now`.

Storage itself never fails in the model, so the `DatabaseError` wrapping
branches of the source are dead here; thrown errors are always the
validation errors raised before storage is touched.
-/

set_option maxRecDepth 10000

namespace TodoApp

/-- A JavaScript string, as the sequence of its characters. -/
abbrev JSString := List Char

/-- `String.prototype.trim`: strip leading and trailing whitespace. -/
def jsTrim (s : JSString) : JSString :=
  ((s.dropWhile Char.isWhitespace).reverse.dropWhile Char.isWhitespace).reverse

/-- `String.prototype.toLowerCase` (on the alphabet the app uses). -/
def jsToLower (s : JSString) : JSString := s.map Char.toLower

/-- SQL `column LIKE '%pat%'` with SQLite's ASCII-case-insensitive LIKE:
the pattern occurs as a contiguous segment of the lower-cased column. -/
def likeContains (hay : JSString) (pat : JSString) : Bool :=
  (jsToLower hay).tails.any (fun t => pat.isPrefixOf t)

/-- The `priority` column enum (`low`/`medium`/`high`). -/
inductive Priority where
  | low
  | medium
  | high
deriving DecidableEq, Repr

/-- The text stored for a priority; the `priority` column is TEXT, so
sorting by priority compares these strings. -/
def Priority.text : Priority → JSString
  | .low => "low".data
  | .medium => "medium".data
  | .high => "high".data

/-- A row of the `todos` table (the `Todo` record type of `todos.ts`). -/
structure Todo where
  id : Nat
  title : JSString
  description : Option JSString
  completed : Bool
  priority : Priority
  createdAt : Nat
  updatedAt : Nat
deriving DecidableEq, Repr

/-- The `todos` table: its rows plus the autoincrement counter that will
number the next inserted row. -/
structure DB where
  rows : List Todo
  nextId : Nat
deriving DecidableEq, Repr

/-- The errors `todos.ts` throws (`errors.ts`).  `NotFoundError` is defined
there but never raised by the data-access layer, so it is omitted. -/
inductive TodoError where
  | validationErr (message : String) (field : Option String)
  | databaseErr (message : String)
deriving DecidableEq, Repr

/-- `CreateTodoData`. -/
structure CreateTodoData where
  title : JSString
  description : Option JSString
  priority : Option Priority
deriving DecidableEq, Repr

/-- `UpdateTodoData`; `none` is an absent key. -/
structure UpdateTodoData where
  title : Option JSString
  description : Option JSString
  completed : Option Bool
  priority : Option Priority
deriving DecidableEq, Repr

/-- `TodoFilter`. -/
structure TodoFilter where
  completed : Option Bool
  priority : Option Priority
  search : Option JSString
deriving DecidableEq, Repr

/-- The sortable fields of `TodoSort`. -/
inductive SortField where
  | createdAt
  | updatedAt
  | title
  | priority
deriving DecidableEq, Repr

/-- Sort direction. -/
inductive SortOrder where
  | asc
  | desc
deriving DecidableEq, Repr

/-- `TodoSort`. -/
structure TodoSort where
  field : SortField
  order : SortOrder
deriving DecidableEq, Repr

/-- `TodoPagination`. -/
structure TodoPagination where
  limit : Nat
  offset : Nat
deriving DecidableEq, Repr

/-- The per-priority counters of `getTodoStats`. -/
structure PriorityCounts where
  low : Nat
  medium : Nat
  high : Nat
deriving DecidableEq, Repr

/-- The snapshot `getTodoStats` returns. -/
structure TodoStats where
  total : Nat
  completed : Nat
  pending : Nat
  byPriority : PriorityCounts
deriving DecidableEq, Repr

/-- The outcome of one operation: the returned value or the thrown error,
the table afterwards, and how many storage statements were issued. -/
abbrev OpResult (α : Type) := Except TodoError α × DB × Nat

/-- The id guard `!Number.isInteger(id) || id <= 0` shared by every
id-taking operation. -/
def isInvalidId (id : ℚ) : Bool :=
  (id.den != 1) || decide (id.num ≤ 0)

/-- Lexicographic order on character sequences (SQLite TEXT comparison on
the ASCII data the app stores). -/
def charSeqLe : JSString → JSString → Bool
  | [], _ => true
  | _ :: _, [] => false
  | a :: as, b :: bs => if a = b then charSeqLe as bs else decide (a < b)

/-- Comparison on the sort field's column value. -/
def sortKeyLe (f : SortField) (a b : Todo) : Bool :=
  match f with
  | .createdAt => decide (a.createdAt ≤ b.createdAt)
  | .updatedAt => decide (a.updatedAt ≤ b.updatedAt)
  | .title => charSeqLe a.title b.title
  | .priority => charSeqLe a.priority.text b.priority.text

/-- `orderBy(asc(col))` / `orderBy(desc(col))`: the row order requested. -/
def sortLe (s : TodoSort) (a b : Todo) : Bool :=
  match s.order with
  | .asc => sortKeyLe s.field a b
  | .desc => sortKeyLe s.field b a

/-- Insert into a sorted list (helper of `sortTodos`). -/
def insertTodo (le : Todo → Todo → Bool) (x : Todo) : List Todo → List Todo
  | [] => [x]
  | y :: ys => if le x y then x :: y :: ys else y :: insertTodo le x ys

/-- The engine's ORDER BY, modelled as an insertion sort under the
requested row order. -/
def sortTodos (le : Todo → Todo → Bool) : List Todo → List Todo
  | [] => []
  | x :: xs => insertTodo le x (sortTodos le xs)

/-- The `search` sub-group of `getAllTodos`/`searchTodos`:
`like(title, term) OR like(description, term)` with the lower-cased term;
a NULL description matches nothing. -/
def matchesSearch (term : JSString) (t : Todo) : Bool :=
  let pat := jsToLower term
  likeContains t.title pat ||
    (match t.description with
     | some d => likeContains d pat
     | none => false)

/-- The conjunction of the predicates `getAllTodos` pushes for a filter.
Absent keys add no predicate; `filter?.search` and `filter?.priority` are
truthiness tests, so an empty search string also adds no predicate. -/
def matchesFilter (filter : Option TodoFilter) (t : Todo) : Bool :=
  match filter with
  | none => true
  | some f =>
    (match f.completed with
     | some c => t.completed == c
     | none => true) &&
    (match f.priority with
     | some p => t.priority == p
     | none => true) &&
    (match f.search with
     | some s => if s = [] then true else matchesSearch s t
     | none => true)

/-- `getAllTodos`: filter, sort, paginate, one SELECT. -/
def getAllTodos (db : DB) (filter : Option TodoFilter) (sort : TodoSort)
    (pagination : Option TodoPagination) : OpResult (List Todo) :=
  let filtered := db.rows.filter (matchesFilter filter)
  let sorted := sortTodos (sortLe sort) filtered
  let paged :=
    match pagination with
    | some p => (sorted.drop p.offset).take p.limit
    | none => sorted
  (.ok paged, db, 1)

/-- `getTodoById`: id guard, then `SELECT ... WHERE id = ? LIMIT 1`,
returning the first match or null. -/
def getTodoById (db : DB) (id : ℚ) : OpResult (Option Todo) :=
  if isInvalidId id then
    (.error (.validationErr "Invalid todo ID" (some "id")), db, 0)
  else
    (.ok (db.rows.find? (fun t => t.id == id.num.toNat)), db, 1)

/-- The shared description check of `createTodo` and `updateTodo`:
`data.description && data.description.length > 1000` (the raw, untrimmed
length; an empty string is falsy and also has length 0). -/
def descError? (d : Option JSString) : Option TodoError :=
  match d with
  | some s =>
    if 1000 < s.length then
      some (.validationErr "Description must be 1000 characters or less" (some "description"))
    else
      none
  | none => none

/-- The row `createTodo` inserts: trimmed title, trimmed-or-null
description (`data.description?.trim() || null`), defaulted priority,
`completed: false`, both timestamps `now`. -/
def createRecord (db : DB) (data : CreateTodoData) (now : Nat) : Todo :=
  { id := db.nextId
    title := jsTrim data.title
    description :=
      match data.description with
      | some d => if jsTrim d = [] then none else some (jsTrim d)
      | none => none
    completed := false
    priority := data.priority.getD .medium
    createdAt := now
    updatedAt := now }

/-- `createTodo`.  `!data.title || data.title.trim().length === 0` is
equivalent to a trim of length zero; the runtime priority-enum check can
never fire for a value of the closed `Priority` type, so it is vacuous. -/
def createTodo (db : DB) (data : CreateTodoData) (now : Nat) : OpResult Todo :=
  if (jsTrim data.title).length = 0 then
    (.error (.validationErr "Title is required" (some "title")), db, 0)
  else if 255 < (jsTrim data.title).length then
    (.error (.validationErr "Title must be 255 characters or less" (some "title")), db, 0)
  else
    match descError? data.description with
    | some e => (.error e, db, 0)
    | none =>
      let t := createRecord db data now
      (.ok t, { rows := db.rows ++ [t], nextId := db.nextId + 1 }, 1)

/-- The field validation of `updateTodo`, in source order: title checks
when a title key is present, then the description length check. -/
def updateDataError? (data : UpdateTodoData) : Option TodoError :=
  match data.title with
  | some s =>
    if (jsTrim s).length = 0 then
      some (.validationErr "Title cannot be empty" (some "title"))
    else if 255 < (jsTrim s).length then
      some (.validationErr "Title must be 255 characters or less" (some "title"))
    else
      descError? data.description
  | none => descError? data.description

/-- The effect of `updateTodo`'s `.set(updateData)` on a matched row.
A present title is stored trimmed.  A present description is stored
trimmed when the trim is non-empty; when the trim is empty the source
computes `data.description.trim() || undefined`, and drizzle drops
`undefined` values from the update set, so the stored column keeps its
prior value.  An absent description key is deleted from `updateData` and
likewise leaves the column unchanged.  `updatedAt` is always refreshed;
`createdAt` is never part of the update set. -/
def applyUpdate (data : UpdateTodoData) (now : Nat) (t : Todo) : Todo :=
  { t with
    title :=
      match data.title with
      | some s => jsTrim s
      | none => t.title
    description :=
      match data.description with
      | some d => if jsTrim d = [] then t.description else some (jsTrim d)
      | none => t.description
    completed := data.completed.getD t.completed
    priority := data.priority.getD t.priority
    updatedAt := now }

/-- `updateTodo`: id guard, field validation, then one UPDATE with
RETURNING, yielding the updated row or null. -/
def updateTodo (db : DB) (id : ℚ) (data : UpdateTodoData) (now : Nat) :
    OpResult (Option Todo) :=
  if isInvalidId id then
    (.error (.validationErr "Invalid todo ID" (some "id")), db, 0)
  else
    match updateDataError? data with
    | some e => (.error e, db, 0)
    | none =>
      let n := id.num.toNat
      let rows := db.rows.map (fun t => if t.id == n then applyUpdate data now t else t)
      (.ok (rows.find? (fun t => t.id == n)), { db with rows := rows }, 1)

/-- `deleteTodo`: id guard, then one DELETE; returns whether a row was
removed (`changes > 0`). -/
def deleteTodo (db : DB) (id : ℚ) : OpResult Bool :=
  if isInvalidId id then
    (.error (.validationErr "Invalid todo ID" (some "id")), db, 0)
  else
    let n := id.num.toNat
    (.ok (db.rows.any (fun t => t.id == n)),
      { db with rows := db.rows.filter (fun t => !(t.id == n)) }, 1)

/-- `toggleTodoComplete`: read the record through `getTodoById` (null
propagates), then flip `completed` through `updateTodo`; a nested
`ValidationError` is re-thrown unchanged. -/
def toggleTodoComplete (db : DB) (id : ℚ) (now : Nat) : OpResult (Option Todo) :=
  match getTodoById db id with
  | (.error e, db1, a) => (.error e, db1, a)
  | (.ok none, db1, a) => (.ok none, db1, a)
  | (.ok (some t), db1, a) =>
    match updateTodo db1 id ⟨none, none, some (!t.completed), none⟩ now with
    | (r, db2, a2) => (r, db2, a + a2)

/-- The snapshot `getTodoStats` computes via its six COUNT queries over
one table state. -/
def computeStats (db : DB) : TodoStats :=
  { total := db.rows.length
    completed := db.rows.countP (fun t => t.completed)
    pending := db.rows.countP (fun t => !t.completed)
    byPriority :=
      { low := db.rows.countP (fun t => t.priority == Priority.low)
        medium := db.rows.countP (fun t => t.priority == Priority.medium)
        high := db.rows.countP (fun t => t.priority == Priority.high) } }

/-- `getTodoStats`: six COUNT round trips, no mutation. -/
def getTodoStats (db : DB) : OpResult TodoStats :=
  (.ok (computeStats db), db, 6)

/-- `searchTodos`: a blank term (`!searchTerm.trim()`) short-circuits to
an empty list with no query; otherwise one SELECT with the LIKE
sub-group, ordered by `createdAt` descending. -/
def searchTodos (db : DB) (searchTerm : JSString) : OpResult (List Todo) :=
  if jsTrim searchTerm = [] then
    (.ok [], db, 0)
  else
    let rows := db.rows.filter (matchesSearch searchTerm)
    (.ok (sortTodos (sortLe ⟨.createdAt, .desc⟩) rows), db, 1)

/-- The `.set({ ...updates, updatedAt: now })` of `bulkUpdateTodos`: the
present fields are written verbatim (no trimming on this path) and
`updatedAt` is refreshed. -/
def applyBulkUpdate (u : UpdateTodoData) (now : Nat) (t : Todo) : Todo :=
  { t with
    title := u.title.getD t.title
    description :=
      match u.description with
      | some d => some d
      | none => t.description
    completed := u.completed.getD t.completed
    priority := u.priority.getD t.priority
    updatedAt := now }

/-- One iteration of the per-id loop of `bulkUpdateTodos`: issue the
UPDATE for this id and increment the counter when it changed a row
(`changes > 0`, i.e. the WHERE clause matched). -/
def bulkStep (u : UpdateTodoData) (now : Nat) (acc : DB × Nat) (id : ℚ) : DB × Nat :=
  let db := acc.1
  let n := id.num.toNat
  let changed := db.rows.any (fun t => t.id == n)
  ({ db with rows := db.rows.map (fun t => if t.id == n then applyBulkUpdate u now t else t) },
    if changed then acc.2 + 1 else acc.2)

/-- The fixed batch size of `bulkUpdateTodos`. -/
def batchSize : Nat := 50

/-- The batches `ids.slice(i, i + batchSize)` for `i = 0, 50, 100, ...`. -/
def toBatches : List ℚ → List (List ℚ)
  | [] => []
  | x :: xs =>
    (x :: xs).take batchSize :: toBatches ((x :: xs).drop batchSize)
termination_by l => l.length
decreasing_by
  simp only [List.length_drop, List.length_cons, batchSize]
  omega

/-- `bulkUpdateTodos`: empty ids short-circuit to 0 with no storage
access; every id is validated up front (throwing on the first invalid
one); then one UPDATE per id, batch by batch, counting the ids whose
UPDATE changed a row. -/
def bulkUpdateTodos (db : DB) (ids : List ℚ) (updates : UpdateTodoData) (now : Nat) :
    OpResult Nat :=
  if ids.length = 0 then
    (.ok 0, db, 0)
  else
    match ids.find? isInvalidId with
    | some bad =>
      (.error (.validationErr ("Invalid todo ID: " ++ toString bad) (some "id")), db, 0)
    | none =>
      let out := (toBatches ids).foldl
        (fun acc batch => batch.foldl (bulkStep updates now) acc) (db, 0)
      (.ok out.2, out.1, ids.length)

/-- The `field` of a thrown `ValidationError`, if the outcome is one. -/
def errField {α : Type} : Except TodoError α → Option String
  | .error (.validationErr _ f) => f
  | _ => none

/-- A non-integral id (`1.5`-like), for exercising the integrality guard. -/
def qHalf : ℚ := ⟨1, 2, by decide, by decide⟩

/-- An empty table. -/
def dbEmpty : DB := ⟨[], 1⟩

/-- A sample stored row with a description. -/
def t0 : Todo :=
  { id := 1
    title := ['a']
    description := some ['o', 'l', 'd']
    completed := false
    priority := .medium
    createdAt := 0
    updatedAt := 0 }

/-- A one-row table holding `t0`. -/
def db1 : DB := ⟨[t0], 2⟩

/-- An update carrying no field at all. -/
def emptyUpdate : UpdateTodoData := ⟨none, none, none, none⟩

lemma applyUpdate_id (data : UpdateTodoData) (now : Nat) (t : Todo) :
    (applyUpdate data now t).id = t.id := rfl

lemma find?_update_map (n : Nat) (f : Todo → Todo) (hf : ∀ t, (f t).id = t.id) :
    ∀ rows : List Todo,
      (rows.map (fun t => if t.id == n then f t else t)).find? (fun t => t.id == n)
        = (rows.find? (fun t => t.id == n)).map f
  | [] => by simp
  | t :: rows => by
    rw [List.map_cons]
    by_cases h : t.id = n
    · have hb : (t.id == n) = true := beq_iff_eq.mpr h
      have hfb : ((f t).id == n) = true := by rw [hf t]; exact hb
      rw [if_pos hb, List.find?_cons, List.find?_cons, hb, hfb]
      rfl
    · have hb : (t.id == n) = false := by simp [h]
      have hfb : ((f t).id == n) = false := by rw [hf t]; exact hb
      rw [if_neg (by rw [hb]; exact Bool.false_ne_true), List.find?_cons, List.find?_cons, hb]
      exact find?_update_map n f hf rows

/-- C1: every id-taking operation rejects a non-positive or non-integral id
with a `ValidationError` naming the `id` field, performing no storage
access and leaving the table unchanged; `bulkUpdateTodos` does so whenever
its (necessarily non-empty) id list contains such an id. -/
theorem C1_invalid_id_rejected (db : DB) (id : ℚ) (u : UpdateTodoData)
    (ids : List ℚ) (now : Nat)
    (h : isInvalidId id = true) (hmem : id ∈ ids) :
    (∃ m, getTodoById db id = (.error (.validationErr m (some "id")), db, 0)) ∧
    (∃ m, updateTodo db id u now = (.error (.validationErr m (some "id")), db, 0)) ∧
    (∃ m, deleteTodo db id = (.error (.validationErr m (some "id")), db, 0)) ∧
    (∃ m, toggleTodoComplete db id now = (.error (.validationErr m (some "id")), db, 0)) ∧
    (∃ m, bulkUpdateTodos db ids u now = (.error (.validationErr m (some "id")), db, 0)) := by
  refine ⟨⟨"Invalid todo ID", ?_⟩, ⟨"Invalid todo ID", ?_⟩, ⟨"Invalid todo ID", ?_⟩,
    ⟨"Invalid todo ID", ?_⟩, ?_⟩
  · simp [getTodoById, h]
  · simp [updateTodo, h]
  · simp [deleteTodo, h]
  · simp [toggleTodoComplete, getTodoById, h]
  · have hne : ¬ ids.length = 0 := by
      cases ids with
      | nil => cases hmem
      | cons a l => simp
    have hsome : (ids.find? isInvalidId).isSome := List.find?_isSome.mpr ⟨id, hmem, h⟩
    obtain ⟨bad, hbad⟩ := Option.isSome_iff_exists.mp hsome
    exact ⟨"Invalid todo ID: " ++ toString bad, by simp [bulkUpdateTodos, hne, hbad]⟩

/-- C1 witness, at the non-integral id `1/2` against the one-row table. -/
theorem C1_invalid_id_rejected_witness :
    (∃ m, getTodoById db1 qHalf = (.error (.validationErr m (some "id")), db1, 0)) ∧
    (∃ m, updateTodo db1 qHalf emptyUpdate 3 = (.error (.validationErr m (some "id")), db1, 0)) ∧
    (∃ m, deleteTodo db1 qHalf = (.error (.validationErr m (some "id")), db1, 0)) ∧
    (∃ m, toggleTodoComplete db1 qHalf 3 = (.error (.validationErr m (some "id")), db1, 0)) ∧
    (∃ m, bulkUpdateTodos db1 [qHalf] emptyUpdate 3 = (.error (.validationErr m (some "id")), db1, 0)) :=
  C1_invalid_id_rejected db1 qHalf emptyUpdate [qHalf] 3 (by decide) (by decide)

instance {ε α : Type} [DecidableEq ε] [DecidableEq α] : DecidableEq (Except ε α) := fun x y =>
  match x, y with
  | .ok a, .ok b =>
    if h : a = b then isTrue (by rw [h]) else isFalse (by intro hc; cases hc; exact h rfl)
  | .error a, .error b =>
    if h : a = b then isTrue (by rw [h]) else isFalse (by intro hc; cases hc; exact h rfl)
  | .ok _, .error _ => isFalse (by intro hc; cases hc)
  | .error _, .ok _ => isFalse (by intro hc; cases hc)

lemma updateTodo_ok (db : DB) (id : ℚ) (data : UpdateTodoData) (now : Nat) (t : Todo)
    (hid : isInvalidId id = false) (hv : updateDataError? data = none)
    (ht : db.rows.find? (fun r => r.id == id.num.toNat) = some t) :
    updateTodo db id data now
      = (Except.ok (some (applyUpdate data now t)),
         ⟨db.rows.map (fun r => if r.id == id.num.toNat then applyUpdate data now r else r), db.nextId⟩, 1) := by
  unfold updateTodo
  rw [if_neg (by rw [hid]; exact Bool.false_ne_true), hv]
  show (Except.ok ((db.rows.map (fun r => if r.id == id.num.toNat then applyUpdate data now r else r)).find?
      (fun r => r.id == id.num.toNat)),
    (⟨db.rows.map (fun r => if r.id == id.num.toNat then applyUpdate data now r else r), db.nextId⟩ : DB),
    (1 : Nat)) = _
  rw [find?_update_map id.num.toNat (applyUpdate data now) (fun r => rfl) db.rows, ht]
  rfl

/-- C2: for an existing record, a successful `updateTodo` keeps `createdAt`
unchanged, does not decrease `updatedAt` (time never runs backwards, so
the stored `updatedAt` is at most `now`), and leaves every field that is
absent from the partial update at its prior stored value. -/
theorem C2_update_frame (db : DB) (id : ℚ) (data : UpdateTodoData) (now : Nat) (t : Todo)
    (hid : isInvalidId id = false) (hv : updateDataError? data = none)
    (ht : db.rows.find? (fun r => r.id == id.num.toNat) = some t)
    (hnow : t.updatedAt ≤ now) :
    ∃ t2, (updateTodo db id data now).1 = Except.ok (some t2) ∧
      t2.createdAt = t.createdAt ∧
      t.updatedAt ≤ t2.updatedAt ∧
      (data.title = none → t2.title = t.title) ∧
      (data.description = none → t2.description = t.description) ∧
      (data.completed = none → t2.completed = t.completed) ∧
      (data.priority = none → t2.priority = t.priority) := by
  refine ⟨applyUpdate data now t, ?_, rfl, hnow, ?_, ?_, ?_, ?_⟩
  · rw [updateTodo_ok db id data now t hid hv ht]
  · intro h
    simp [applyUpdate, h]
  · intro h
    simp [applyUpdate, h]
  · intro h
    simp [applyUpdate, h]
  · intro h
    simp [applyUpdate, h]

/-- An update that passes validation: a title key and a completed key. -/
def updW : UpdateTodoData := ⟨some [' ', 'b'], none, some true, none⟩

/-- C2 witness: updating row 1 of the one-row table at time 5. -/
theorem C2_update_frame_witness :
    ∃ t2, (updateTodo db1 1 updW 5).1 = Except.ok (some t2) ∧
      t2.createdAt = t0.createdAt ∧
      t0.updatedAt ≤ t2.updatedAt ∧
      (updW.title = none → t2.title = t0.title) ∧
      (updW.description = none → t2.description = t0.description) ∧
      (updW.completed = none → t2.completed = t0.completed) ∧
      (updW.priority = none → t2.priority = t0.priority) :=
  C2_update_frame db1 1 updW 5 t0 (by decide) (by decide) (by decide) (by decide)

/-- C5 counterexample: row 1 stores the description `"old"`; updating it
with the whitespace-only description `"   "` succeeds but leaves the
stored description as `"old"` — it does not become absent/null as the
claim states (the source turns the empty trim into `undefined`, which the
storage layer drops from the update set). -/
theorem C5_counterexample :
    jsTrim [' ', ' ', ' '] = ([] : JSString) ∧
    (updateTodo db1 1 ⟨none, some [' ', ' ', ' '], none, none⟩ 5).1
      = Except.ok (some { t0 with updatedAt := 5 }) ∧
    ({ t0 with updatedAt := 5 } : Todo).description = some ['o', 'l', 'd'] := by
  decide

/-- C5 (amended): when the partial update carries a description,
`updateTodo` stores its trim if that is non-empty; when the description is
empty or whitespace-only (empty after trimming), the stored description
keeps its prior value — the field is dropped from the update set rather
than being set to null. -/
theorem C5_update_description (db : DB) (id : ℚ) (data : UpdateTodoData) (d : JSString)
    (now : Nat) (t : Todo)
    (hid : isInvalidId id = false) (hv : updateDataError? data = none)
    (hd : data.description = some d)
    (ht : db.rows.find? (fun r => r.id == id.num.toNat) = some t) :
    ∃ t2, (updateTodo db id data now).1 = Except.ok (some t2) ∧
      t2.description = (if jsTrim d = [] then t.description else some (jsTrim d)) := by
  refine ⟨applyUpdate data now t, ?_, ?_⟩
  · rw [updateTodo_ok db id data now t hid hv ht]
  · simp [applyUpdate, hd]

/-- C5 witness: a padded description `" new "` is stored as its trim. -/
theorem C5_update_description_witness :
    ∃ t2, (updateTodo db1 1 ⟨none, some [' ', 'n', 'e', 'w', ' '], none, none⟩ 9).1
        = Except.ok (some t2) ∧
      t2.description = (if jsTrim [' ', 'n', 'e', 'w', ' '] = [] then t0.description
        else some (jsTrim [' ', 'n', 'e', 'w', ' '])) :=
  C5_update_description db1 1 ⟨none, some [' ', 'n', 'e', 'w', ' '], none, none⟩
    [' ', 'n', 'e', 'w', ' '] 9 t0 (by decide) (by decide) rfl (by decide)

lemma bulkStep_rows_id (u : UpdateTodoData) (now : Nat) (acc : DB × Nat) (q : ℚ) :
    ((bulkStep u now acc q).1).rows.map (fun t => t.id) = acc.1.rows.map (fun t => t.id) := by
  show (acc.1.rows.map
      (fun t => if t.id == q.num.toNat then applyBulkUpdate u now t else t)).map (fun t => t.id)
    = acc.1.rows.map (fun t => t.id)
  rw [List.map_map]
  apply List.map_congr_left
  intro t _
  by_cases h : t.id = q.num.toNat
  · simp [Function.comp, h, applyBulkUpdate]
  · simp [Function.comp, h]

lemma any_id_eq_map_any (rows : List Todo) (n : Nat) :
    rows.any (fun t => t.id == n) = (rows.map (fun t => t.id)).any (fun i => i == n) := by
  induction rows with
  | nil => rfl
  | cons t rows ih => simp [List.any_cons, ih]

lemma rows_any_of_map_id (rows rows2 : List Todo)
    (h : rows.map (fun t => t.id) = rows2.map (fun t => t.id)) (n : Nat) :
    rows.any (fun t => t.id == n) = rows2.any (fun t => t.id == n) := by
  rw [any_id_eq_map_any, any_id_eq_map_any, h]

lemma bulkFold_count (u : UpdateTodoData) (now : Nat) :
    ∀ (ids : List ℚ) (db : DB) (c : Nat),
      (ids.foldl (bulkStep u now) (db, c)).2
        = c + (ids.filter (fun q => db.rows.any (fun t => t.id == q.num.toNat))).length
  | [], db, c => by simp
  | q :: qs, db, c => by
    have hids := bulkStep_rows_id u now (db, c) q
    have hfilt : qs.filter (fun q2 => ((bulkStep u now (db, c) q).1).rows.any
          (fun t => t.id == q2.num.toNat))
        = qs.filter (fun q2 => db.rows.any (fun t => t.id == q2.num.toNat)) :=
      List.filter_congr (fun q2 _ => rows_any_of_map_id _ _ hids q2.num.toNat)
    have ih := bulkFold_count u now qs (bulkStep u now (db, c) q).1 (bulkStep u now (db, c) q).2
    rw [hfilt] at ih
    rw [List.foldl_cons, List.filter_cons]
    by_cases hch : db.rows.any (fun t => t.id == q.num.toNat) = true
    · have hsnd : (bulkStep u now (db, c) q).2 = c + 1 := by simp [bulkStep, hch]
      rw [show qs.foldl (bulkStep u now) (bulkStep u now (db, c) q)
            = qs.foldl (bulkStep u now) ((bulkStep u now (db, c) q).1, (bulkStep u now (db, c) q).2)
          from rfl, ih, hsnd, if_pos hch]
      simp
      omega
    · have hch2 : db.rows.any (fun t => t.id == q.num.toNat) = false :=
        Bool.not_eq_true _ ▸ Bool.of_not_eq_true hch
      have hsnd : (bulkStep u now (db, c) q).2 = c := by simp [bulkStep, hch2]
      rw [show qs.foldl (bulkStep u now) (bulkStep u now (db, c) q)
            = qs.foldl (bulkStep u now) ((bulkStep u now (db, c) q).1, (bulkStep u now (db, c) q).2)
          from rfl, ih, hsnd, if_neg (by rw [hch2]; exact Bool.false_ne_true)]

lemma toBatches_foldl (u : UpdateTodoData) (now : Nat) (l : List ℚ) (acc : DB × Nat) :
    (toBatches l).foldl (fun a batch => batch.foldl (bulkStep u now) a) acc
      = l.foldl (bulkStep u now) acc := by
  induction l using toBatches.induct generalizing acc with
  | case1 =>
    rw [toBatches]
    rfl
  | case2 x xs ih =>
    rw [toBatches, List.foldl_cons, ih, ← List.foldl_append, List.take_append_drop]

/-- C3: `bulkUpdateTodos` on an empty id list returns 0 with no storage
access and no state change; on a list of valid ids it returns the number
of submitted ids whose per-id UPDATE matched (and hence changed) a row in
the table — not the number of ids submitted. -/
theorem C3_bulk_count (db : DB) (ids : List ℚ) (u : UpdateTodoData) (now : Nat)
    (h : ∀ q ∈ ids, isInvalidId q = false) :
    bulkUpdateTodos db [] u now = (.ok 0, db, 0) ∧
    (bulkUpdateTodos db ids u now).1
      = .ok ((ids.filter (fun q => db.rows.any (fun t => t.id == q.num.toNat))).length) := by
  refine ⟨rfl, ?_⟩
  cases ids with
  | nil => rfl
  | cons a l =>
    have hlen : ¬ (a :: l).length = 0 := by simp
    have hfind : (a :: l).find? isInvalidId = none := by
      rw [List.find?_eq_none]
      intro q hq
      rw [h q hq]
      exact Bool.false_ne_true
    unfold bulkUpdateTodos
    rw [if_neg hlen, hfind]
    show Except.ok ((toBatches (a :: l)).foldl
        (fun acc batch => batch.foldl (bulkStep u now) acc) (db, 0)).2
      = Except.ok (((a :: l).filter (fun q => db.rows.any (fun t => t.id == q.num.toNat))).length)
    rw [toBatches_foldl u now (a :: l) (db, 0), bulkFold_count u now (a :: l) db 0, Nat.zero_add]

/-- C3 witness: ids `[1, 2, 1]` against the one-row table (only id 1
exists) yield a count of 2, not 3; the empty list yields 0. -/
theorem C3_bulk_count_witness :
    bulkUpdateTodos db1 [] emptyUpdate 7 = (.ok 0, db1, 0) ∧
    (bulkUpdateTodos db1 [1, 2, 1] emptyUpdate 7).1 = Except.ok 2 := by
  have h := C3_bulk_count db1 [1, 2, 1] emptyUpdate 7 (by decide)
  refine ⟨h.1, ?_⟩
  rw [h.2]
  decide

/-- A 1001-character description whose trim has 1000 characters. -/
def c4desc : JSString := List.replicate 1000 'a' ++ [' ']

/-- C4 counterexample: `c4desc` trims to 1000 characters — within the
limit the claim states — yet `createTodo` rejects it with a description
`ValidationError`, because the source checks the raw, untrimmed length. -/
theorem C4_counterexample :
    (jsTrim c4desc).length ≤ 1000 ∧
    errField (createTodo dbEmpty ⟨['t'], some c4desc, none⟩ 0).1 = some "description" := by
  constructor
  · decide
  · decide

/-- C4 (amended): with the title checks passing (and a valid id for
`updateTodo`), a description `ValidationError` is raised exactly when a
description is present whose raw, untrimmed length exceeds 1000
characters; the trimmed length is not what is checked. -/
theorem C4_description_length_check (dbc dbu : DB) (cd : CreateTodoData) (id : ℚ)
    (ud : UpdateTodoData) (nowc nowu : Nat)
    (h1 : (jsTrim cd.title).length ≠ 0) (h2 : (jsTrim cd.title).length ≤ 255)
    (h3 : ∀ s, ud.title = some s → (jsTrim s).length ≠ 0 ∧ (jsTrim s).length ≤ 255)
    (hid : isInvalidId id = false) :
    (errField (createTodo dbc cd nowc).1 = some "description"
      ↔ ∃ d, cd.description = some d ∧ 1000 < d.length) ∧
    (errField (updateTodo dbu id ud nowu).1 = some "description"
      ↔ ∃ d, ud.description = some d ∧ 1000 < d.length) := by
  constructor
  · unfold createTodo
    rw [if_neg h1, if_neg (by omega)]
    cases hd : cd.description with
    | none => simp [descError?, errField]
    | some s =>
      by_cases hlen : 1000 < s.length
      · simp [descError?, hlen, errField]
      · simp [descError?, hlen, errField]
  · unfold updateTodo
    rw [if_neg (by rw [hid]; exact Bool.false_ne_true)]
    have hupd : updateDataError? ud = descError? ud.description := by
      cases hti : ud.title with
      | none => simp only [updateDataError?, hti]
      | some s =>
        obtain ⟨hs1, hs2⟩ := h3 s hti
        simp only [updateDataError?, hti]
        rw [if_neg hs1, if_neg (by omega)]
    rw [hupd]
    cases hd : ud.description with
    | none => simp [descError?, errField]
    | some s =>
      by_cases hlen : 1000 < s.length
      · simp [descError?, hlen, errField]
      · simp [descError?, hlen, errField]

/-- A 1001-character description. -/
def c4long : JSString := List.replicate 1001 'a'

/-- C4 witness: a raw length of 1001 is rejected on both paths. -/
theorem C4_description_length_check_witness :
    (errField (createTodo dbEmpty ⟨['t'], some c4long, none⟩ 0).1 = some "description"
      ↔ ∃ d, (some c4long : Option JSString) = some d ∧ 1000 < d.length) ∧
    (errField (updateTodo db1 1 ⟨none, some c4long, none, none⟩ 0).1 = some "description"
      ↔ ∃ d, (some c4long : Option JSString) = some d ∧ 1000 < d.length) :=
  C4_description_length_check dbEmpty db1 ⟨['t'], some c4long, none⟩ 1
    ⟨none, some c4long, none, none⟩ 0 0
    (by decide) (by decide) (fun s hs => nomatch hs) (by decide)

/-- A title of exactly 255 characters. -/
def title255 : JSString := List.replicate 255 'a'

/-- A title of exactly 256 characters. -/
def title256 : JSString := List.replicate 256 'a'

/-- C6: `createTodo` raises a title `ValidationError` exactly when the
trimmed title is empty (which covers a missing/empty/whitespace-only
title) or longer than 255 characters; a 256-character title is rejected
while a 255-character title is accepted. -/
theorem C6_title_validation (db : DB) (data : CreateTodoData) (now : Nat) :
    (errField (createTodo db data now).1 = some "title"
      ↔ (jsTrim data.title).length = 0 ∨ 255 < (jsTrim data.title).length) ∧
    errField (createTodo db ⟨title256, none, none⟩ now).1 = some "title" ∧
    (∃ t, (createTodo db ⟨title255, none, none⟩ now).1 = Except.ok t) := by
  have hiff : ∀ d2 : CreateTodoData,
      errField (createTodo db d2 now).1 = some "title"
        ↔ (jsTrim d2.title).length = 0 ∨ 255 < (jsTrim d2.title).length := by
    intro d2
    unfold createTodo
    by_cases ht0 : (jsTrim d2.title).length = 0
    · simp [ht0, errField]
    · rw [if_neg ht0]
      by_cases ht255 : 255 < (jsTrim d2.title).length
      · simp [ht255, errField, ht0]
      · rw [if_neg ht255]
        cases hd : d2.description with
        | none => simp [descError?, errField, ht0, ht255]
        | some s =>
          by_cases hlen : 1000 < s.length
          · simp [descError?, hlen, errField, ht0, ht255]
          · simp [descError?, hlen, errField, ht0, ht255]
  refine ⟨hiff data, (hiff ⟨title256, none, none⟩).mpr (Or.inr (by decide)), ?_⟩
  refine ⟨createRecord db ⟨title255, none, none⟩ now, ?_⟩
  unfold createTodo
  rw [if_neg (by decide), if_neg (by decide)]
  rfl

/-- C7: a successful `createTodo` returns the inserted record: trimmed
title, trimmed description (null when absent or empty after trimming),
priority defaulted to medium, `completed` false, and `createdAt` equal to
`updatedAt` equal to the current time. -/
theorem C7_create_result (db : DB) (data : CreateTodoData) (now : Nat)
    (h1 : (jsTrim data.title).length ≠ 0) (h2 : (jsTrim data.title).length ≤ 255)
    (h3 : ∀ d, data.description = some d → d.length ≤ 1000) :
    ∃ t, (createTodo db data now).1 = Except.ok t ∧
      t.title = jsTrim data.title ∧
      t.description = (match data.description with
        | some d => if jsTrim d = [] then none else some (jsTrim d)
        | none => none) ∧
      t.priority = data.priority.getD Priority.medium ∧
      t.completed = false ∧
      t.createdAt = now ∧
      t.updatedAt = now := by
  have hdesc : descError? data.description = none := by
    cases hd : data.description with
    | none => rfl
    | some s =>
      have hs := h3 s hd
      simp only [descError?]
      rw [if_neg (by omega)]
  refine ⟨createRecord db data now, ?_, rfl, rfl, rfl, rfl, rfl, rfl⟩
  unfold createTodo
  rw [if_neg h1, if_neg (by omega), hdesc]

/-- C7 witness: `create` with a padded title, a whitespace-only
description and explicit high priority at time 4. -/
theorem C7_create_result_witness :
    ∃ t, (createTodo dbEmpty ⟨[' ', 'x', ' '], some [' '], some Priority.high⟩ 4).1
        = Except.ok t ∧
      t.title = jsTrim [' ', 'x', ' '] ∧
      t.description = (match (some [' '] : Option JSString) with
        | some d => if jsTrim d = [] then none else some (jsTrim d)
        | none => none) ∧
      t.priority = (some Priority.high).getD Priority.medium ∧
      t.completed = false ∧
      t.createdAt = 4 ∧
      t.updatedAt = 4 :=
  C7_create_result dbEmpty ⟨[' ', 'x', ' '], some [' '], some Priority.high⟩ 4
    (by decide) (by decide) (fun d hd => by injection hd with h; rw [← h]; decide)

lemma countP_completed_partition (rows : List Todo) :
    rows.countP (fun t => t.completed) + rows.countP (fun t => !t.completed) = rows.length := by
  induction rows with
  | nil => rfl
  | cons t rows ih =>
    rw [List.countP_cons, List.countP_cons, List.length_cons]
    cases h : t.completed with
    | true =>
      simp [h]
      omega
    | false =>
      simp [h]
      omega

lemma countP_priority_partition (rows : List Todo) :
    rows.countP (fun t => t.priority == Priority.low)
      + rows.countP (fun t => t.priority == Priority.medium)
      + rows.countP (fun t => t.priority == Priority.high) = rows.length := by
  induction rows with
  | nil => rfl
  | cons t rows ih =>
    rw [List.countP_cons, List.countP_cons, List.countP_cons, List.length_cons]
    cases h : t.priority with
    | low =>
      simp [h, beq_iff_eq]
      omega
    | medium =>
      simp [h, beq_iff_eq]
      omega
    | high =>
      simp [h, beq_iff_eq]
      omega

/-- C8: for any table snapshot (the model has no concurrent writers), the
statistics snapshot satisfies `total = completed + pending` and
`total = byPriority.low + byPriority.medium + byPriority.high`. -/
theorem C8_stats_partition (db : DB) :
    (getTodoStats db).1 = Except.ok (computeStats db) ∧
    (computeStats db).total = (computeStats db).completed + (computeStats db).pending ∧
    (computeStats db).total
      = (computeStats db).byPriority.low + (computeStats db).byPriority.medium
        + (computeStats db).byPriority.high := by
  refine ⟨rfl, ?_, ?_⟩
  · exact (countP_completed_partition db.rows).symm
  · exact (countP_priority_partition db.rows).symm

/-- C9: a blank (empty or whitespace-only) search term makes `searchTodos`
return an empty list with no storage query and no state change. -/
theorem C9_search_blank (db : DB) (term : JSString) (h : jsTrim term = []) :
    searchTodos db term = (Except.ok [], db, 0) := by
  unfold searchTodos
  rw [if_pos h]

/-- C9 witness: the whitespace-only term `" "`. -/
theorem C9_search_blank_witness : searchTodos db1 [' '] = (Except.ok [], db1, 0) :=
  C9_search_blank db1 [' '] (by decide)

/-- C10: an empty-string search key in the filter contributes no
predicate: `getAllTodos` returns exactly what it returns without the
search key (and, with no other keys, what it returns with no filter at
all) — in contrast to `searchTodos`, where an empty term short-circuits
to an empty result. -/
theorem C10_empty_search_no_predicate (db : DB) (c : Option Bool) (p : Option Priority)
    (sort : TodoSort) (pag : Option TodoPagination) :
    getAllTodos db (some ⟨c, p, some []⟩) sort pag = getAllTodos db (some ⟨c, p, none⟩) sort pag ∧
    getAllTodos db (some ⟨none, none, some []⟩) sort pag = getAllTodos db none sort pag ∧
    searchTodos db [] = (Except.ok [], db, 0) := by
  have hf1 : ∀ t, matchesFilter (some ⟨c, p, some []⟩) t = matchesFilter (some ⟨c, p, none⟩) t := by
    intro t
    simp [matchesFilter]
  have hf2 : ∀ t, matchesFilter (some ⟨none, none, some []⟩) t = matchesFilter none t := by
    intro t
    simp [matchesFilter]
  refine ⟨?_, ?_, ?_⟩
  · unfold getAllTodos
    rw [List.filter_congr (fun t _ => hf1 t)]
  · unfold getAllTodos
    rw [List.filter_congr (fun t _ => hf2 t)]
  · unfold searchTodos
    rw [if_pos (show jsTrim ([] : JSString) = [] from rfl)]

end TodoApp
